import Mathlib

/-!
Verification of the empcon-backend Time & Attendance Reconciliation Engine.

Shallow embedding of the core services:
  TimeClockService        (src/src/features/employee/employee.routes.ts, second document)
  ScheduleService         (src/unnamed/part_013)
  PayPeriodService        (src/src/features/payroll/payPeriod.service.ts)
  PayrollCalculationService (src/src/features/payroll/emailService.service.ts)

Conventions of the embedding:
  * JavaScript `Date` values are modelled as natural-number milliseconds since
    the epoch (`Nat`).  The minute-of-hour extraction (`getMinutes`) and the
    minute/second/millisecond setters used by `applyPayrollRounding` are
    modelled assuming a whole-hour local-timezone offset (true of the
    organizational zone America/Vancouver), under which the local minute of a
    timestamp is `t / 60000 % 60`.
  * JavaScript floating point arithmetic on hours and money is modelled with
    exact rationals (`ℚ`).
  * Database access is modelled by passing the relevant rows (or the
    `Option` of a row looked up by id) as explicit arguments.
  * `throw new Error(...)` is modelled with `Except`.
  * The constants package `@empcon/types` (DEFAULT_TIMECLOCK_RULES,
    DEFAULT_OVERTIME_RULES, DEFAULT_DEDUCTION_RATES) is not part of the
    sources; the grace period / threshold / multiplier / deduction rates are
    therefore explicit parameters of the embedded functions.
-/

/-- One minute in milliseconds. -/
def msPerMinute : Nat := 60000

/-- One hour in milliseconds. -/
def msPerHour : Nat := 3600000

/-- `dateTime.getMinutes()` for a whole-hour-offset local timezone. -/
def minuteOfHour (t : Nat) : Nat := t / msPerMinute % 60

/-- The timestamp truncated to the start of its hour. -/
def startOfHour (t : Nat) : Nat := t / msPerHour * msPerHour

/-- TimeClockService.applyPayrollRounding (employee.routes.ts lines 104-141):
minute 0-7 -> :00, 8-22 -> :15, 23-37 -> :30, 38-52 -> :45, 53-59 -> next hour
:00; seconds and milliseconds always zeroed. -/
def applyPayrollRounding (t : Nat) : Nat :=
  let originalMinutes := minuteOfHour t
  let roundedMinutes :=
    if originalMinutes ≤ 7 then 0
    else if originalMinutes ≤ 22 then 15
    else if originalMinutes ≤ 37 then 30
    else if originalMinutes ≤ 52 then 45
    else 60
  startOfHour t + roundedMinutes * msPerMinute

/-- Result of TimeClockService.applyGracePeriod. -/
structure GraceResult where
  adjustedTime : Nat
  gracePeriodApplied : Bool
  deriving Repr, DecidableEq

/-- TimeClockService.applyGracePeriod (employee.routes.ts lines 144-161):
if `|actual - scheduled| <= gracePeriodMinutes` the adjusted time is the
scheduled time, otherwise the actual time.  The source's default
`gracePeriodMinutes` comes from DEFAULT_TIMECLOCK_RULES (value 5 per the
source comment "5 minutes before/after scheduled time"). -/
def applyGracePeriod (actualTime scheduledTime : Nat)
    (gracePeriodMinutes : Nat := 5) : GraceResult :=
  let withinGracePeriod := decide (Nat.dist actualTime scheduledTime ≤ gracePeriodMinutes * msPerMinute)
  { adjustedTime := if withinGracePeriod then scheduledTime else actualTime
    gracePeriodApplied := withinGracePeriod }

/-- TimeEntry status values. -/
inductive EntryStatus where
  | CLOCKED_IN
  | CLOCKED_OUT
  | ADJUSTED
  deriving Repr, DecidableEq

/-- The TimeEntry row together with the joined schedule's end time (the
Prisma queries in clockOut/adjustTimeEntry `include` the schedule).
Location/ip/audit columns are omitted: no claim mentions them. -/
structure TimeEntryRec where
  employeeId : String
  clockInTime : Nat
  clockOutTime : Option Nat
  scheduledStartTime : Option Nat
  scheduledEndTime : Option Nat
  scheduleEndTime : Nat
  adjustedStartTime : Option Nat
  adjustedEndTime : Option Nat
  gracePeriodApplied : Bool
  totalHours : Option ℚ
  overtimeHours : Option ℚ
  status : EntryStatus
  deriving Repr, DecidableEq

/-- The distinct failure kinds thrown by clockOut / adjustTimeEntry
(distinguished in the source by their message strings). -/
inductive ClockOutError where
  | notFound
  | permission
  | alreadyClockedOut
  deriving Repr, DecidableEq

/-- `totalMinutesWorked = (roundedEnd - roundedStart) / (1000*60)` and
`finalHours = max(0, totalMinutesWorked / 60)` from clockOut
(employee.routes.ts lines 383-388). -/
def hoursFromRounded (roundedStart roundedEnd : Nat) : ℚ :=
  max 0 (((roundedEnd : ℚ) - (roundedStart : ℚ)) / 60000 / 60)

/-- TimeClockService.clockOut (employee.routes.ts lines 314-465), the state
transition on the entry row.  The checks appear in source order: entry
exists, then the EMPLOYEE-role permission check, then the
already-clocked-out check. -/
def clockOut (entry? : Option TimeEntryRec) (now : Nat)
    (currentUserId userRole : Option String)
    (gracePeriodMinutes : Nat) (overtimeThresholdHours : ℚ) :
    Except ClockOutError TimeEntryRec :=
  match entry? with
  | none => .error .notFound
  | some e =>
    if userRole = some "EMPLOYEE" ∧ some e.employeeId ≠ currentUserId then
      .error .permission
    else if e.clockOutTime.isSome then
      .error .alreadyClockedOut
    else
      let scheduledEndTime := e.scheduledEndTime.getD e.scheduleEndTime
      let gracePeriodResult := applyGracePeriod now scheduledEndTime gracePeriodMinutes
      let adjustedStartTime := e.adjustedStartTime.getD e.clockInTime
      let adjustedEndTime := gracePeriodResult.adjustedTime
      let roundedStart := applyPayrollRounding adjustedStartTime
      let roundedEnd := applyPayrollRounding adjustedEndTime
      let finalHours := hoursFromRounded roundedStart roundedEnd
      let overtimeHours := max 0 (finalHours - overtimeThresholdHours)
      .ok { e with
            clockOutTime := some now
            adjustedEndTime := some adjustedEndTime
            gracePeriodApplied := e.gracePeriodApplied || gracePeriodResult.gracePeriodApplied
            totalHours := some finalHours
            overtimeHours := if overtimeHours > 0 then some overtimeHours else none
            status := .CLOCKED_OUT }

/-- TimeClockService.adjustTimeEntry (employee.routes.ts lines 690-840), the
state transition on the entry row.  Note the hour recomputation (lines
767-797) rounds the raw `finalClockInTime`/`finalClockOutTime` (the supplied
new values, falling back to the stored raw clock times), not the
grace-adjusted times it stores in `adjustedStartTime`/`adjustedEndTime`.
The source guard's first conjunct `(clockInTime || existing.clockInTime)` is
always truthy because `clockInTime` is a non-nullable column. -/
def adjustTimeEntry (entry? : Option TimeEntryRec)
    (clockInTime clockOutTime : Option Nat)
    (gracePeriodMinutes : Nat) (overtimeThresholdHours : ℚ) :
    Except ClockOutError TimeEntryRec :=
  match entry? with
  | none => .error .notFound
  | some e =>
    let e1 : TimeEntryRec := { e with status := .ADJUSTED }
    let e2 :=
      match clockInTime with
      | none => e1
      | some newClockInTime =>
        let e1a := { e1 with clockInTime := newClockInTime }
        match e.scheduledStartTime with
        | none => e1a
        | some s =>
          let gracePeriodResult := applyGracePeriod newClockInTime s gracePeriodMinutes
          { e1a with
            adjustedStartTime := some gracePeriodResult.adjustedTime
            gracePeriodApplied := gracePeriodResult.gracePeriodApplied }
    let e3 :=
      match clockOutTime with
      | none => e2
      | some newClockOutTime =>
        let e2a := { e2 with clockOutTime := some newClockOutTime }
        match e.scheduledEndTime with
        | none => e2a
        | some s =>
          let gracePeriodResult := applyGracePeriod newClockOutTime s gracePeriodMinutes
          { e2a with
            adjustedEndTime := some gracePeriodResult.adjustedTime
            gracePeriodApplied := e.gracePeriodApplied || gracePeriodResult.gracePeriodApplied }
    let e4 :=
      if clockOutTime.isSome || e.clockOutTime.isSome then
        let finalClockInTime := clockInTime.getD e.clockInTime
        let finalClockOutTime := clockOutTime.getD (e.clockOutTime.getD 0)
        let roundedStart := applyPayrollRounding finalClockInTime
        let roundedEnd := applyPayrollRounding finalClockOutTime
        let finalHours := hoursFromRounded roundedStart roundedEnd
        let overtimeHours := max 0 (finalHours - overtimeThresholdHours)
        { e3 with
          totalHours := some finalHours
          overtimeHours := if overtimeHours > 0 then some overtimeHours else none }
      else e3
    .ok e4

/-- The hour recomputation of the clock-out pipeline abstracted from the
entry row (employee.routes.ts lines 366-398): grace period against the
scheduled end first, payroll rounding applied to the grace-adjusted end and
to the (already grace-adjusted) start, then total hours and the overtime
split.  This is what claim C1 asserts adjustTimeEntry reproduces. -/
def clockOutRecompute (adjustedStart actualEnd scheduledEnd : Nat)
    (gracePeriodMinutes : Nat) (overtimeThresholdHours : ℚ) : ℚ × Option ℚ :=
  let gracePeriodResult := applyGracePeriod actualEnd scheduledEnd gracePeriodMinutes
  let roundedStart := applyPayrollRounding adjustedStart
  let roundedEnd := applyPayrollRounding gracePeriodResult.adjustedTime
  let finalHours := hoursFromRounded roundedStart roundedEnd
  let overtimeHours := max 0 (finalHours - overtimeThresholdHours)
  (finalHours, if overtimeHours > 0 then some overtimeHours else none)

/-- The fields of formatTimeEntryResponse (employee.routes.ts lines 843-885)
relevant to the claims.  The hour columns arrive from Prisma as `Decimal`
objects, which are truthy whenever non-null, so
`timeEntry.overtimeHours ? Number(timeEntry.overtimeHours) : undefined`
passes the optional value through unchanged. -/
structure ApiTimeEntry where
  employeeId : String
  clockInTime : Nat
  clockOutTime : Option Nat
  adjustedStartTime : Option Nat
  adjustedEndTime : Option Nat
  gracePeriodApplied : Bool
  totalHours : Option ℚ
  overtimeHours : Option ℚ
  status : EntryStatus
  deriving Repr, DecidableEq

/-- TimeClockService.formatTimeEntryResponse restricted to the fields above. -/
def formatTimeEntryResponse (e : TimeEntryRec) : ApiTimeEntry :=
  { employeeId := e.employeeId
    clockInTime := e.clockInTime
    clockOutTime := e.clockOutTime
    adjustedStartTime := e.adjustedStartTime
    adjustedEndTime := e.adjustedEndTime
    gracePeriodApplied := e.gracePeriodApplied
    totalHours := e.totalHours
    overtimeHours := e.overtimeHours
    status := e.status }

/-- Rounding fixes any timestamp aligned to a quarter-hour breakpoint. -/
theorem applyPayrollRounding_aligned (q rm : Nat)
    (h : rm = 0 ∨ rm = 15 ∨ rm = 30 ∨ rm = 45) :
    applyPayrollRounding (q * 3600000 + rm * 60000) = q * 3600000 + rm * 60000 := by
  have hrm60 : rm < 60 := by omega
  have hdiv : (q * 3600000 + rm * 60000) / 60000 = q * 60 + rm := by
    rw [show q * 3600000 + rm * 60000 = (q * 60 + rm) * 60000 by ring]
    exact Nat.mul_div_cancel _ (by norm_num)
  have hhour : (q * 3600000 + rm * 60000) / 3600000 = q := by
    rw [show q * 3600000 + rm * 60000 = 3600000 * q + rm * 60000 by ring,
      Nat.mul_add_div (by norm_num)]
    have hlt : rm * 60000 / 3600000 = 0 := Nat.div_eq_of_lt (by omega)
    omega
  have hmod : (q * 60 + rm) % 60 = rm := by
    rw [mul_comm q 60, Nat.mul_add_mod]
    exact Nat.mod_eq_of_lt hrm60
  unfold applyPayrollRounding minuteOfHour startOfHour msPerMinute msPerHour
  dsimp only
  rw [hdiv, hmod, hhour]
  rcases h with h | h | h | h <;> subst h <;> norm_num

/-- Every rounded timestamp is aligned to a quarter-hour breakpoint. -/
theorem applyPayrollRounding_exists_aligned (t : Nat) :
    ∃ q rm, (rm = 0 ∨ rm = 15 ∨ rm = 30 ∨ rm = 45) ∧
      applyPayrollRounding t = q * 3600000 + rm * 60000 := by
  unfold applyPayrollRounding minuteOfHour startOfHour msPerMinute msPerHour
  dsimp only
  split_ifs
  · exact ⟨t / 3600000, 0, Or.inl rfl, rfl⟩
  · exact ⟨t / 3600000, 15, Or.inr (Or.inl rfl), rfl⟩
  · exact ⟨t / 3600000, 30, Or.inr (Or.inr (Or.inl rfl)), rfl⟩
  · exact ⟨t / 3600000, 45, Or.inr (Or.inr (Or.inr rfl)), rfl⟩
  · exact ⟨t / 3600000 + 1, 0, Or.inl rfl, by ring⟩

/-- C9: rounding an already-rounded timestamp is a no-op. -/
theorem payrollRounding_idempotent (t : Nat) :
    applyPayrollRounding (applyPayrollRounding t) = applyPayrollRounding t := by
  obtain ⟨q, rm, hrm, heq⟩ := applyPayrollRounding_exists_aligned t
  rw [heq, applyPayrollRounding_aligned q rm hrm]

/-- A Schedule row (src/unnamed/part_013).  Columns not consulted by the
conflict query are omitted. -/
structure ScheduleRec where
  id : String
  employeeId : String
  startTime : Nat
  endTime : Nat
  isActive : Bool
  deriving Repr, DecidableEq

/-- The four-case `OR` of the Prisma query in
ScheduleService.checkScheduleConflicts (part_013 lines 64-93), evaluated
against the candidate interval `[startDateTime, endDateTime)`. -/
def overlapsFourCase (startDateTime endDateTime : Nat) (sch : ScheduleRec) : Bool :=
  decide ((sch.startTime ≤ startDateTime ∧ sch.endTime > startDateTime) ∨
    (sch.startTime < endDateTime ∧ sch.endTime ≥ endDateTime) ∨
    (sch.startTime ≥ startDateTime ∧ sch.endTime ≤ endDateTime) ∨
    (sch.startTime ≤ startDateTime ∧ sch.endTime ≥ endDateTime))

/-- The full `where` clause of the conflict query: same employee, active,
not the excluded schedule, and one of the four overlap cases. -/
def matchesConflictQuery (employeeId : String) (excludeScheduleId : Option String)
    (startDateTime endDateTime : Nat) (sch : ScheduleRec) : Bool :=
  decide (sch.employeeId = employeeId) && sch.isActive &&
    (match excludeScheduleId with
     | some ex => decide (sch.id ≠ ex)
     | none => true) &&
    overlapsFourCase startDateTime endDateTime sch

/-- One element of `conflictingSchedules` in the response. -/
structure ConflictInfo where
  id : String
  startTime : Nat
  endTime : Nat
  overlapMinutes : Nat
  deriving Repr, DecidableEq

/-- The ConflictCheckResponse. -/
structure ConflictCheckResponse where
  hasConflict : Bool
  conflictingSchedules : List ConflictInfo
  deriving Repr, DecidableEq

/-- ScheduleService.checkScheduleConflicts (part_013 lines 50-120) with the
employee's schedule table passed explicitly.
`overlapMinutes = max(0, (min(e1,e2) - max(s1,s2)) / 60000)` floored;
truncated natural subtraction realizes the `max(0, _)`. -/
def checkScheduleConflicts (schedules : List ScheduleRec) (employeeId : String)
    (startTime endTime : Nat) (excludeScheduleId : Option String) :
    ConflictCheckResponse :=
  let conflictingSchedules := schedules.filter
    (matchesConflictQuery employeeId excludeScheduleId startTime endTime)
  let conflicts := conflictingSchedules.map fun sch =>
    { id := sch.id
      startTime := sch.startTime
      endTime := sch.endTime
      overlapMinutes :=
        (min endTime sch.endTime - max startTime sch.startTime) / msPerMinute }
  { hasConflict := decide (conflicts.length > 0)
    conflictingSchedules := conflicts }

/-- For well-formed intervals the four enumerated Prisma cases coincide with
the canonical half-open overlap test. -/
theorem overlapsFourCase_iff_halfOpen (startDateTime endDateTime : Nat)
    (sch : ScheduleRec) (hcand : startDateTime < endDateTime)
    (hsch : sch.startTime < sch.endTime) :
    overlapsFourCase startDateTime endDateTime sch = true ↔
      (startDateTime < sch.endTime ∧ sch.startTime < endDateTime) := by
  unfold overlapsFourCase
  simp only [decide_eq_true_eq]
  omega

/-- C2: `hasConflict = true` iff some schedule of the same employee, active
and not excluded, overlaps the candidate in the half-open sense
`s1 < e2 ∧ s2 < e1`.  Consequently back-to-back shifts never conflict and
`hasConflict = false` implies empty intersection. -/
theorem checkScheduleConflicts_halfOpen (schedules : List ScheduleRec)
    (employeeId : String) (startTime endTime : Nat)
    (excludeScheduleId : Option String)
    (hcand : startTime < endTime)
    (hws : ∀ sch ∈ schedules, sch.startTime < sch.endTime) :
    (checkScheduleConflicts schedules employeeId startTime endTime
        excludeScheduleId).hasConflict = true ↔
      ∃ sch ∈ schedules, sch.employeeId = employeeId ∧ sch.isActive = true ∧
        (∀ ex, excludeScheduleId = some ex → sch.id ≠ ex) ∧
        startTime < sch.endTime ∧ sch.startTime < endTime := by
  have hpoint : ∀ sch ∈ schedules,
      (matchesConflictQuery employeeId excludeScheduleId startTime endTime sch = true ↔
        (sch.employeeId = employeeId ∧ sch.isActive = true ∧
         (∀ ex, excludeScheduleId = some ex → sch.id ≠ ex) ∧
         startTime < sch.endTime ∧ sch.startTime < endTime)) := by
    intro sch hmem
    have hov := overlapsFourCase_iff_halfOpen startTime endTime sch hcand (hws sch hmem)
    unfold matchesConflictQuery
    cases excludeScheduleId with
    | none =>
      simp only [Bool.and_eq_true, Bool.and_true, decide_eq_true_eq, hov]
      constructor
      · rintro ⟨⟨h1, h2⟩, h4⟩
        refine ⟨h1, h2, ?_, h4⟩
        intro ex hx
        exact nomatch hx
      · rintro ⟨h1, h2, _, h4⟩
        exact ⟨⟨h1, h2⟩, h4⟩
    | some ex0 =>
      simp only [Bool.and_eq_true, decide_eq_true_eq, hov]
      constructor
      · rintro ⟨⟨⟨h1, h2⟩, h3⟩, h4⟩
        refine ⟨h1, h2, ?_, h4⟩
        intro ex hx
        cases hx
        exact h3
      · rintro ⟨h1, h2, h3, h4⟩
        exact ⟨⟨⟨h1, h2⟩, h3 ex0 rfl⟩, h4⟩
  have hkey : (checkScheduleConflicts schedules employeeId startTime endTime
        excludeScheduleId).hasConflict = true ↔
      ∃ sch ∈ schedules,
        matchesConflictQuery employeeId excludeScheduleId startTime endTime sch = true := by
    unfold checkScheduleConflicts
    simp only [decide_eq_true_eq, List.length_map, gt_iff_lt,
      ← List.countP_eq_length_filter, List.countP_pos_iff]
  rw [hkey]
  constructor
  · rintro ⟨sch, hmem, hp⟩
    exact ⟨sch, hmem, (hpoint sch hmem).mp hp⟩
  · rintro ⟨sch, hmem, hp⟩
    exact ⟨sch, hmem, (hpoint sch hmem).mpr hp⟩

/-- C2 witness: a back-to-back pair (existing 09:00-17:00, candidate
17:00-23:00, in ms-of-day) does not conflict; shifting the candidate one
minute earlier does. -/
theorem checkScheduleConflicts_halfOpen_witness :
    ((checkScheduleConflicts [⟨"s1", "emp1", 32400000, 61200000, true⟩] "emp1"
        61200000 82800000 none).hasConflict = true ↔
      ∃ sch ∈ [(⟨"s1", "emp1", 32400000, 61200000, true⟩ : ScheduleRec)],
        sch.employeeId = "emp1" ∧ sch.isActive = true ∧
        (∀ ex, (none : Option String) = some ex → sch.id ≠ ex) ∧
        61200000 < sch.endTime ∧ sch.startTime < 82800000) := by
  exact checkScheduleConflicts_halfOpen _ _ _ _ _ (by norm_num)
    (by intro sch hmem; simp at hmem; subst hmem; norm_num)

/-- A baseline open time entry used as concrete input: schedule 09:00-17:10
(ms of day), clock-in on time. -/
def entryBase : TimeEntryRec :=
  { employeeId := "alice"
    clockInTime := 32400000
    clockOutTime := none
    scheduledStartTime := some 32400000
    scheduledEndTime := some 61800000
    scheduleEndTime := 61800000
    adjustedStartTime := some 32400000
    adjustedEndTime := none
    gracePeriodApplied := false
    totalHours := none
    overtimeHours := none
    status := .CLOCKED_IN }

/-- C3 counterexample: an already-clocked-out entry owned by "alice", a
non-privileged caller "bob": the source raises the permission error, not the
already-clocked-out state error, because the EMPLOYEE permission check at
employee.routes.ts lines 350-355 precedes the `clockOutTime` check at line
357. -/
theorem clockOut_foreign_clocked_out_gives_permission :
    clockOut (some { entryBase with clockOutTime := some 61800000, status := .CLOCKED_OUT })
        61800000 (some "bob") (some "EMPLOYEE") 5 8
      = Except.error ClockOutError.permission ∧
    clockOut (some { entryBase with clockOutTime := some 61800000, status := .CLOCKED_OUT })
        61800000 (some "bob") (some "EMPLOYEE") 5 8
      ≠ Except.error ClockOutError.alreadyClockedOut := by
  refine ⟨rfl, ?_⟩
  intro h
  rw [show clockOut (some { entryBase with clockOutTime := some 61800000, status := .CLOCKED_OUT })
        61800000 (some "bob") (some "EMPLOYEE") 5 8
      = Except.error ClockOutError.permission from rfl] at h
  exact ClockOutError.noConfusion (Except.error.inj h)

/-- C3 amended: clockOut checks its preconditions in the order NotFound,
then PermissionError (non-privileged caller on someone else's entry), then
StateError (already clocked out); so an already-clocked-out entry owned by
another employee gives a non-privileged caller the PermissionError. -/
theorem clockOut_check_order (now : Nat) (currentUserId userRole : Option String)
    (gracePeriodMinutes : Nat) (overtimeThresholdHours : ℚ) (e : TimeEntryRec) :
    clockOut none now currentUserId userRole gracePeriodMinutes overtimeThresholdHours
      = Except.error ClockOutError.notFound ∧
    (userRole = some "EMPLOYEE" → some e.employeeId ≠ currentUserId →
      clockOut (some e) now currentUserId userRole gracePeriodMinutes overtimeThresholdHours
        = Except.error ClockOutError.permission) ∧
    (¬(userRole = some "EMPLOYEE" ∧ some e.employeeId ≠ currentUserId) →
      e.clockOutTime.isSome = true →
      clockOut (some e) now currentUserId userRole gracePeriodMinutes overtimeThresholdHours
        = Except.error ClockOutError.alreadyClockedOut) := by
  refine ⟨rfl, ?_, ?_⟩
  · intro h1 h2
    simp only [clockOut]
    rw [if_pos ⟨h1, h2⟩]
  · intro h1 h2
    simp only [clockOut]
    rw [if_neg h1, if_pos h2]

/-- C3 amended witness: the order observed on concrete entries. -/
theorem clockOut_check_order_witness :
    clockOut (some { entryBase with clockOutTime := some 61800000 })
        61800000 (some "alice") (some "EMPLOYEE") 5 8
      = Except.error ClockOutError.alreadyClockedOut ∧
    clockOut (some { entryBase with employeeId := "carol", clockOutTime := some 61800000 })
        61800000 (some "dave") (some "EMPLOYEE") 5 8
      = Except.error ClockOutError.permission := by
  constructor
  · exact (clockOut_check_order 61800000 (some "alice") (some "EMPLOYEE") 5 8
      { entryBase with clockOutTime := some 61800000 }).2.2 (by simp [entryBase]) rfl
  · exact (clockOut_check_order 61800000 (some "dave") (some "EMPLOYEE") 5 8
      { entryBase with employeeId := "carol", clockOutTime := some 61800000 }).2.1 rfl
      (by simp)

/-- The stored overtime option (`overtimeHours > 0 ? overtimeHours : null`
over `overtimeHours = max(0, finalHours - threshold)`) is non-null exactly
when the hours strictly exceed the threshold. -/
theorem overtimeOption_ne_none_iff (fH thr : ℚ) :
    ((if max 0 (fH - thr) > 0 then some (max 0 (fH - thr)) else none) ≠ none ↔ thr < fH) := by
  have hiff : (0 < max 0 (fH - thr)) ↔ thr < fH := by
    rw [lt_max_iff]
    constructor
    · rintro (h | h)
      · exact absurd h (lt_irrefl 0)
      · linarith
    · intro h
      exact Or.inr (by linarith)
  split_ifs with h
  · simpa using hiff.mp h
  · simp only [ne_eq, not_true_eq_false, false_iff]
    intro hc
    exact h (hiff.mpr hc)

/-- C10: after clockOut (and after an adjustment that recomputes hours), the
stored and the formatted `overtimeHours` are absent (null) when the computed
overtime is zero, and present exactly when the rounded worked hours strictly
exceed the overtime threshold. -/
theorem overtime_present_iff_above_threshold (e : TimeEntryRec) (now : Nat)
    (currentUserId userRole : Option String) (gracePeriodMinutes : Nat)
    (overtimeThresholdHours : ℚ) (e2 : TimeEntryRec) (newIn newOut : Option Nat) :
    (∀ e', clockOut (some e) now currentUserId userRole gracePeriodMinutes
        overtimeThresholdHours = Except.ok e' →
      ∃ h : ℚ, e'.totalHours = some h ∧
        (e'.overtimeHours ≠ none ↔ overtimeThresholdHours < h) ∧
        ((formatTimeEntryResponse e').overtimeHours ≠ none ↔ overtimeThresholdHours < h)) ∧
    (∀ e2', adjustTimeEntry (some e2) newIn newOut gracePeriodMinutes
        overtimeThresholdHours = Except.ok e2' →
      (newOut.isSome ∨ e2.clockOutTime.isSome) →
      ∃ h : ℚ, e2'.totalHours = some h ∧
        (e2'.overtimeHours ≠ none ↔ overtimeThresholdHours < h) ∧
        ((formatTimeEntryResponse e2').overtimeHours ≠ none ↔ overtimeThresholdHours < h)) := by
  constructor
  · intro e' hok
    simp only [clockOut] at hok
    by_cases hperm : userRole = some "EMPLOYEE" ∧ some e.employeeId ≠ currentUserId
    · rw [if_pos hperm] at hok
      exact absurd hok (by simp)
    · rw [if_neg hperm] at hok
      by_cases hco : e.clockOutTime.isSome = true
      · rw [if_pos hco] at hok
        exact absurd hok (by simp)
      · rw [if_neg hco] at hok
        rw [Except.ok.injEq] at hok
        subst hok
        exact ⟨_, rfl, overtimeOption_ne_none_iff _ _, overtimeOption_ne_none_iff _ _⟩
  · intro e2' hok hsome
    have hb : (newOut.isSome || e2.clockOutTime.isSome) = true := by
      rcases hsome with h | h <;> simp [h]
    simp only [adjustTimeEntry] at hok
    rw [Except.ok.injEq] at hok
    subst hok
    rw [if_pos hb]
    exact ⟨_, rfl, overtimeOption_ne_none_iff _ _, overtimeOption_ne_none_iff _ _⟩

/-- The entry produced by a concrete clockOut run (schedule end 17:10,
clock-out at 17:10, quarter-hour rounding up to 17:15, 8.25 worked hours
against a threshold of 8). -/
def clockOutResultW : TimeEntryRec :=
  (clockOut (some entryBase) 61800000 none none 5 8).toOption.getD entryBase

/-- The entry produced by a concrete adjustTimeEntry run on a clocked-out
copy of entryBase with a new clock-out of 17:03. -/
def adjustResultW : TimeEntryRec :=
  (adjustTimeEntry (some { entryBase with clockOutTime := some 61800000 })
    none (some 61380000) 5 8).toOption.getD entryBase

/-- C10 witness: the characterization evaluated on the two concrete runs. -/
theorem overtime_present_iff_above_threshold_witness :
    (∃ h : ℚ, clockOutResultW.totalHours = some h ∧
      (clockOutResultW.overtimeHours ≠ none ↔ (8 : ℚ) < h) ∧
      ((formatTimeEntryResponse clockOutResultW).overtimeHours ≠ none ↔ (8 : ℚ) < h)) ∧
    (∃ h : ℚ, adjustResultW.totalHours = some h ∧
      (adjustResultW.overtimeHours ≠ none ↔ (8 : ℚ) < h) ∧
      ((formatTimeEntryResponse adjustResultW).overtimeHours ≠ none ↔ (8 : ℚ) < h)) := by
  constructor
  · exact (overtime_present_iff_above_threshold entryBase 61800000 none none 5 8
      entryBase none none).1 clockOutResultW rfl
  · exact (overtime_present_iff_above_threshold entryBase 61800000 none none 5 8
      { entryBase with clockOutTime := some 61800000 } none (some 61380000)).2
      adjustResultW rfl (Or.inl rfl)

/-- A properly clocked-out copy of entryBase: clock-out at the scheduled end
17:10, grace-adjusted end 17:10, rounded span 09:00-17:15 = 8.25 hours
against a threshold of 8, overtime 0.25. -/
def entryClockedOut : TimeEntryRec :=
  { entryBase with
    clockOutTime := some 61800000
    adjustedEndTime := some 61800000
    gracePeriodApplied := true
    totalHours := some (33/4)
    overtimeHours := some (1/4)
    status := .CLOCKED_OUT }

/-- The entry produced by adjusting entryClockedOut with newClockOut 17:07. -/
def adjustResultC1 : TimeEntryRec :=
  (adjustTimeEntry (some entryClockedOut) none (some 61620000) 5 8).toOption.getD entryBase

/-- C1: adjusting entryClockedOut with newClockOut = 17:07 (within the
5-minute grace window of the scheduled end 17:10).  adjustTimeEntry stores
the grace-adjusted end 17:10 but recomputes hours from the raw 17:07, which
rounds DOWN to 17:00 giving 8 hours and no overtime; the clock-out pipeline
on the same inputs grace-snaps to 17:10, rounds UP to 17:15, and yields 8.25
hours with 0.25 overtime.  The adjusted entry ends up with stored
adjusted times (09:00-17:10) that contradict its own stored hours. -/
theorem adjust_rounds_raw_not_grace_adjusted :
    (adjustTimeEntry (some entryClockedOut) none (some 61620000) 5 8
        = Except.ok adjustResultC1 ∧
      adjustResultC1.adjustedEndTime = some 61800000 ∧
      adjustResultC1.adjustedStartTime = some 32400000 ∧
      adjustResultC1.totalHours = some 8 ∧
      adjustResultC1.overtimeHours = none) ∧
    clockOutRecompute 32400000 61620000 61800000 5 8 = (33/4, some (1/4)) ∧
    ((8 : ℚ) ≠ 33/4 ∧ (none : Option ℚ) ≠ some (1/4)) := by
  have hr1 : applyPayrollRounding 32400000 = 32400000 := by decide
  have hr2 : applyPayrollRounding 61620000 = 61200000 := by decide
  have hr3 : applyPayrollRounding 61800000 = 62100000 := by decide
  have hh1 : hoursFromRounded 32400000 61200000 = 8 := by
    unfold hoursFromRounded
    rw [max_eq_right (by norm_num)]
    norm_num
  have hh2 : hoursFromRounded 32400000 62100000 = 33/4 := by
    unfold hoursFromRounded
    rw [max_eq_right (by norm_num)]
    norm_num
  refine ⟨⟨rfl, rfl, rfl, ?_, ?_⟩, ?_, by norm_num, by simp⟩
  · show some (hoursFromRounded (applyPayrollRounding 32400000)
        (applyPayrollRounding 61620000)) = some 8
    rw [hr1, hr2, hh1]
  · show (if max 0 (hoursFromRounded (applyPayrollRounding 32400000)
          (applyPayrollRounding 61620000) - 8) > 0
        then some (max 0 (hoursFromRounded (applyPayrollRounding 32400000)
          (applyPayrollRounding 61620000) - 8))
        else none) = none
    rw [hr1, hr2, hh1, show (8 : ℚ) - 8 = 0 by norm_num, max_self,
      if_neg (by norm_num : ¬((0 : ℚ) > 0))]
  · show (hoursFromRounded (applyPayrollRounding 32400000)
        (applyPayrollRounding (applyGracePeriod 61620000 61800000 5).adjustedTime),
      if max 0 (hoursFromRounded (applyPayrollRounding 32400000)
          (applyPayrollRounding (applyGracePeriod 61620000 61800000 5).adjustedTime) - 8) > 0
      then some (max 0 (hoursFromRounded (applyPayrollRounding 32400000)
          (applyPayrollRounding (applyGracePeriod 61620000 61800000 5).adjustedTime) - 8))
      else none) = ((33/4 : ℚ), some (1/4))
    have hg : (applyGracePeriod 61620000 61800000 5).adjustedTime = 61800000 := by decide
    rw [hg, hr1, hr3, hh2, show (33/4 : ℚ) - 8 = 1/4 by norm_num,
      max_eq_right (by norm_num : (0 : ℚ) ≤ 1/4), if_pos (by norm_num : (1/4 : ℚ) > 0)]

/-- Employee pay type. -/
inductive PayType where
  | HOURLY
  | SALARY
  deriving Repr, DecidableEq

/-- PayPeriod status values. -/
inductive PayPeriodStatus where
  | OPEN
  | PROCESSING
  | COMPLETED
  | PAID
  deriving Repr, DecidableEq

/-- A PayPeriod row.  `startMs`/`endMs` are the stored startDate/endDate
instants; `startYear`/`startMonth` (1-based, i.e. `getMonth() + 1`)/
`startDay` are the calendar components of startDate consulted for the
period string; `payslipCount` is the `_count.payslips` relation count. -/
structure PayPeriodRec where
  id : String
  startMs : Nat
  endMs : Nat
  startYear : Nat
  startMonth : Nat
  startDay : Nat
  status : PayPeriodStatus
  payslipCount : Nat
  deriving Repr, DecidableEq

/-- The two failure kinds of deletePayPeriod. -/
inductive DeletePayPeriodError where
  | notFound
  | hasPayslips
  deriving Repr, DecidableEq

/-- PayPeriodService.deletePayPeriod (payPeriod.service.ts lines 265-287):
fails when the period is missing or has payslips; the period's status is
never consulted. -/
def deletePayPeriod (payPeriod? : Option PayPeriodRec) :
    Except DeletePayPeriodError Unit :=
  match payPeriod? with
  | none => .error .notFound
  | some payPeriod =>
    if payPeriod.payslipCount > 0 then .error .hasPayslips
    else .ok ()

/-- C6 counterexample: a PAID pay period with zero payslips IS deleted
(deletePayPeriod returns success rather than failing), because only the
payslip count is checked. -/
theorem deletePayPeriod_deletes_paid_without_payslips :
    deletePayPeriod (some ⟨"pp0", 0, 100, 2024, 1, 1, .PAID, 0⟩) = Except.ok () := rfl

/-- C6 amended: deletion of an existing pay period is blocked iff it has at
least one payslip, regardless of status; in particular a PAID period with
payslips is protected but a PAID period with zero payslips is deleted. -/
theorem deletePayPeriod_blocks_iff_payslips (payPeriod : PayPeriodRec) :
    (payPeriod.status = .PAID → 0 < payPeriod.payslipCount →
      deletePayPeriod (some payPeriod) = Except.error DeletePayPeriodError.hasPayslips) ∧
    (payPeriod.status = .PAID → payPeriod.payslipCount = 0 →
      deletePayPeriod (some payPeriod) = Except.ok ()) ∧
    (deletePayPeriod (some payPeriod) = Except.ok () ↔ payPeriod.payslipCount = 0) := by
  refine ⟨?_, ?_, ?_⟩
  · intro _ hpos
    simp only [deletePayPeriod]
    rw [if_pos hpos]
  · intro _ hzero
    simp only [deletePayPeriod]
    rw [if_neg (by omega)]
  · simp only [deletePayPeriod]
    by_cases hpos : payPeriod.payslipCount > 0
    · rw [if_pos hpos]
      constructor
      · intro h
        exact absurd h (by simp)
      · intro h
        omega
    · rw [if_neg hpos]
      constructor
      · intro _
        omega
      · intro _
        rfl

/-- C6 amended witness: both branches on concrete PAID periods. -/
theorem deletePayPeriod_blocks_iff_payslips_witness :
    deletePayPeriod (some ⟨"pp1", 0, 100, 2024, 1, 1, .PAID, 3⟩)
        = Except.error DeletePayPeriodError.hasPayslips ∧
    deletePayPeriod (some ⟨"pp2", 0, 100, 2024, 1, 16, .PAID, 0⟩) = Except.ok () := by
  constructor
  · exact (deletePayPeriod_blocks_iff_payslips ⟨"pp1", 0, 100, 2024, 1, 1, .PAID, 3⟩).1
      rfl (by norm_num)
  · exact (deletePayPeriod_blocks_iff_payslips ⟨"pp2", 0, 100, 2024, 1, 16, .PAID, 0⟩).2.1
      rfl rfl

/-- `Math.round(x * 100) / 100`; JavaScript Math.round(y) is floor(y + 1/2). -/
def round2 (x : ℚ) : ℚ := ((Int.floor (x * 100 + 1/2) : ℤ) : ℚ) / 100

/-- round2 is the identity on integers. -/
theorem round2_intCast (n : ℤ) : round2 ((n : ℚ)) = (n : ℚ) := by
  unfold round2
  have h1 : ((n : ℚ) * 100 + 1/2) = ((100 * n : ℤ) : ℚ) + (1/2 : ℚ) := by
    push_cast
    ring
  rw [h1, Int.floor_int_add]
  have h2 : Int.floor ((1 : ℚ)/2) = 0 := by
    rw [Int.floor_eq_zero_iff]
    constructor <;> norm_num
  rw [h2, add_zero]
  push_cast
  ring

/-- The configured rates imported from `@empcon/types` (DEFAULT_OVERTIME_RULES
and DEFAULT_DEDUCTION_RATES are not part of src/): the overtime multiplier
(spec default 1.5) and the flat cpp/ei/tax withholding rates. -/
structure PayrollRates where
  overtimeMultiplier : ℚ
  cpp : ℚ
  ei : ℚ
  tax : ℚ
  deriving Repr, DecidableEq

/-- PayrollCalculationInput from the source. -/
structure PayrollCalculationInput where
  employeeId : String
  payPeriodId : String
  payRate : ℚ
  payType : PayType
  deriving Repr, DecidableEq

/-- A TimeEntry row as read by the payroll query, with the joined schedule's
startTime. -/
structure PayrollEntryRec where
  id : String
  clockInTime : Nat
  clockOutTime : Option Nat
  totalHours : Option ℚ
  overtimeHours : Option ℚ
  scheduleStart : Option Nat
  deriving Repr, DecidableEq

/-- The Prisma `where` of calculateEmployeePayroll (emailService.service.ts
lines 849-869): completed entries (`clockOutTime: { not: null }`) whose
schedule's startTime lies within `[startDate, endDate]`; entries without a
schedule do not match the relation filter. -/
def qualifiesForPayroll (payPeriod : PayPeriodRec) (e : PayrollEntryRec) : Bool :=
  e.clockOutTime.isSome &&
    (match e.scheduleStart with
     | some s => decide (payPeriod.startMs ≤ s) && decide (s ≤ payPeriod.endMs)
     | none => false)

/-- One element of `timeEntriesDetails` (the map at lines 875-890);
`scheduleDate` is the ISO date substring of the schedule start (fallback
clock-in time), modelled as the calendar-day index. -/
structure TimeEntryForPayroll where
  id : String
  clockInTime : Nat
  clockOutTime : Option Nat
  totalHours : ℚ
  overtimeHours : Option ℚ
  scheduleDate : Nat
  deriving Repr, DecidableEq

/-- The per-entry detail record built in the map callback. -/
def toTimeEntryForPayroll (e : PayrollEntryRec) : TimeEntryForPayroll :=
  let regularHours := e.totalHours.getD 0
  let overtimeHours := e.overtimeHours.getD 0
  { id := e.id
    clockInTime := e.clockInTime
    clockOutTime := e.clockOutTime
    totalHours := regularHours
    overtimeHours := if overtimeHours > 0 then some overtimeHours else none
    scheduleDate := (e.scheduleStart.getD e.clockInTime) / 86400000 }

/-- `totalRegularHours += regularHours - overtimeHours` accumulated over the
map at lines 875-890 (`entry.totalHours ? Number(..) : 0` is `getD 0`: the
Prisma Decimal is truthy iff non-null, and a null yields 0). -/
def sumRegularHours (l : List PayrollEntryRec) : ℚ :=
  l.foldl (fun acc e => acc + (e.totalHours.getD 0 - e.overtimeHours.getD 0)) 0

/-- `totalOvertimeHours += overtimeHours` accumulated over the same map. -/
def sumOvertimeHours (l : List PayrollEntryRec) : ℚ :=
  l.foldl (fun acc e => acc + e.overtimeHours.getD 0) 0

/-- PayrollCalculationResult: exactly the fields returned at lines 912-925.
There is no anomaly/flag field of any kind. -/
structure PayrollCalculationResult where
  employeeId : String
  payPeriodId : String
  regularHours : ℚ
  overtimeHours : ℚ
  totalHours : ℚ
  regularPay : ℚ
  overtimePay : ℚ
  grossPay : ℚ
  deductions : ℚ
  netPay : ℚ
  timeEntriesCount : Nat
  timeEntriesDetails : List TimeEntryForPayroll
  deriving Repr, DecidableEq

/-- PayrollCalculationService.calculateEmployeePayroll (emailService.service.ts
lines 836-926) after the pay period has been found: hour summation, the
hard-coded 75-hour salary fallback ("Assume 75 hours for semi-monthly
period"), pay formulas, and 2-decimal rounding at the return boundary. -/
def calculateEmployeePayrollCore (input : PayrollCalculationInput)
    (rates : PayrollRates) (payPeriod : PayPeriodRec)
    (entries : List PayrollEntryRec) : PayrollCalculationResult :=
  let timeEntries := entries.filter (qualifiesForPayroll payPeriod)
  let timeEntriesDetails := timeEntries.map toTimeEntryForPayroll
  let totalRegularHours :=
    if input.payType = .SALARY ∧ timeEntries.length = 0 then 75
    else sumRegularHours timeEntries
  let totalOvertimeHours :=
    if input.payType = .SALARY ∧ timeEntries.length = 0 then 0
    else sumOvertimeHours timeEntries
  let regularPay := totalRegularHours * input.payRate
  let overtimePay := totalOvertimeHours * input.payRate * rates.overtimeMultiplier
  let grossPay := regularPay + overtimePay
  let cppDeduction := grossPay * rates.cpp
  let eiDeduction := grossPay * rates.ei
  let taxDeduction := grossPay * rates.tax
  let totalDeductions := cppDeduction + eiDeduction + taxDeduction
  let netPay := grossPay - totalDeductions
  { employeeId := input.employeeId
    payPeriodId := input.payPeriodId
    regularHours := round2 totalRegularHours
    overtimeHours := round2 totalOvertimeHours
    totalHours := round2 (totalRegularHours + totalOvertimeHours)
    regularPay := round2 regularPay
    overtimePay := round2 overtimePay
    grossPay := round2 grossPay
    deductions := round2 totalDeductions
    netPay := round2 netPay
    timeEntriesCount := timeEntries.length
    timeEntriesDetails := timeEntriesDetails }

/-- calculateEmployeePayroll with the pay period lookup (`throw` when the
period id resolves to nothing). -/
def calculateEmployeePayroll (input : PayrollCalculationInput)
    (rates : PayrollRates) (payPeriod? : Option PayPeriodRec)
    (entries : List PayrollEntryRec) : Except String PayrollCalculationResult :=
  match payPeriod? with
  | none => .error "Pay period not found"
  | some payPeriod => .ok (calculateEmployeePayrollCore input rates payPeriod entries)

/-- Rounding respects equality of the unrounded value. -/
theorem round2_congr {a b : ℚ} (h : a = b) : round2 a = round2 b := by
  rw [h]

/-- round2 is the identity on natural numbers. -/
theorem round2_nat (n : ℕ) : round2 ((n : ℚ)) = (n : ℚ) := by
  have h := round2_intCast (n : ℤ)
  push_cast at h
  exact h

/-- The claim C7 example: one qualifying entry of 85 total hours with 5
overtime hours, rate 20. -/
def exampleInputC7 : PayrollCalculationInput := ⟨"emp7", "pp7", 20, .HOURLY⟩

/-- Rates for the C7 example: multiplier 1.5 and flat 5/2/15 percent. -/
def exampleRatesC7 : PayrollRates := ⟨3/2, 1/20, 1/50, 3/20⟩

/-- Pay period for the C7 example. -/
def examplePeriodC7 : PayPeriodRec := ⟨"pp7", 0, 10000000000, 2024, 1, 1, .OPEN, 0⟩

/-- Entries for the C7 example. -/
def exampleEntriesC7 : List PayrollEntryRec :=
  [⟨"t1", 1000, some 2000, some 85, some 5, some 1000⟩]

/-- C7: each returned figure is the 2-decimal rounding of the exact formula
over the unrounded hour sums (fallback included): regularPay = RH*rate,
overtimePay = OH*rate*multiplier, grossPay = their sum, deductions =
gross*(cpp+ei+tax), netPay = gross - deductions, totalHours = RH+OH; and on
the example (RH=80, OH=5, rate=20, multiplier=1.5) the pays are 1600, 150
and 1750. -/
theorem payroll_formulas (input : PayrollCalculationInput) (rates : PayrollRates)
    (payPeriod : PayPeriodRec) (entries : List PayrollEntryRec) :
    (∃ r, calculateEmployeePayroll input rates (some payPeriod) entries = Except.ok r ∧
      ∃ RH OH : ℚ,
        (RH = if input.payType = .SALARY ∧
            (entries.filter (qualifiesForPayroll payPeriod)).length = 0
          then 75 else sumRegularHours (entries.filter (qualifiesForPayroll payPeriod))) ∧
        (OH = if input.payType = .SALARY ∧
            (entries.filter (qualifiesForPayroll payPeriod)).length = 0
          then 0 else sumOvertimeHours (entries.filter (qualifiesForPayroll payPeriod))) ∧
        r.regularPay = round2 (RH * input.payRate) ∧
        r.overtimePay = round2 (OH * input.payRate * rates.overtimeMultiplier) ∧
        r.grossPay = round2 (RH * input.payRate + OH * input.payRate * rates.overtimeMultiplier) ∧
        r.deductions = round2 ((RH * input.payRate + OH * input.payRate * rates.overtimeMultiplier)
          * (rates.cpp + rates.ei + rates.tax)) ∧
        r.netPay = round2 ((RH * input.payRate + OH * input.payRate * rates.overtimeMultiplier)
          - (RH * input.payRate + OH * input.payRate * rates.overtimeMultiplier)
            * (rates.cpp + rates.ei + rates.tax)) ∧
        r.regularHours = round2 RH ∧
        r.overtimeHours = round2 OH ∧
        r.totalHours = round2 (RH + OH)) ∧
    (calculateEmployeePayrollCore exampleInputC7 exampleRatesC7 examplePeriodC7
        exampleEntriesC7).regularPay = 1600 ∧
    (calculateEmployeePayrollCore exampleInputC7 exampleRatesC7 examplePeriodC7
        exampleEntriesC7).overtimePay = 150 ∧
    (calculateEmployeePayrollCore exampleInputC7 exampleRatesC7 examplePeriodC7
        exampleEntriesC7).grossPay = 1750 := by
  have hsum : sumRegularHours (exampleEntriesC7.filter (qualifiesForPayroll examplePeriodC7)) = 80 := by
    norm_num [sumRegularHours, exampleEntriesC7, examplePeriodC7, qualifiesForPayroll]
  have hsumo : sumOvertimeHours (exampleEntriesC7.filter (qualifiesForPayroll examplePeriodC7)) = 5 := by
    norm_num [sumOvertimeHours, exampleEntriesC7, examplePeriodC7, qualifiesForPayroll]
  have h1600 : round2 1600 = 1600 := by
    have h := round2_nat 1600
    norm_num at h
    exact h
  have h150 : round2 150 = 150 := by
    have h := round2_nat 150
    norm_num at h
    exact h
  have h1750 : round2 1750 = 1750 := by
    have h := round2_nat 1750
    norm_num at h
    exact h
  refine ⟨⟨calculateEmployeePayrollCore input rates payPeriod entries, rfl,
    _, _, rfl, rfl, rfl, rfl, rfl, round2_congr (by ring), round2_congr (by ring),
    rfl, rfl, rfl⟩, ?_, ?_, ?_⟩
  · show round2 (sumRegularHours (exampleEntriesC7.filter (qualifiesForPayroll examplePeriodC7))
        * exampleInputC7.payRate) = 1600
    rw [hsum, show (80 : ℚ) * exampleInputC7.payRate = 1600 by norm_num [exampleInputC7], h1600]
  · show round2 (sumOvertimeHours (exampleEntriesC7.filter (qualifiesForPayroll examplePeriodC7))
        * exampleInputC7.payRate * exampleRatesC7.overtimeMultiplier) = 150
    rw [hsumo, show (5 : ℚ) * exampleInputC7.payRate * exampleRatesC7.overtimeMultiplier = 150
      by norm_num [exampleInputC7, exampleRatesC7], h150]
  · show round2 (sumRegularHours (exampleEntriesC7.filter (qualifiesForPayroll examplePeriodC7))
          * exampleInputC7.payRate
        + sumOvertimeHours (exampleEntriesC7.filter (qualifiesForPayroll examplePeriodC7))
          * exampleInputC7.payRate * exampleRatesC7.overtimeMultiplier) = 1750
    rw [hsum, hsumo, show (80 : ℚ) * exampleInputC7.payRate
        + 5 * exampleInputC7.payRate * exampleRatesC7.overtimeMultiplier = 1750
      by norm_num [exampleInputC7, exampleRatesC7], h1750]

/-- The spec-side result shape for the salary fallback.  Modelled from the
spec: "this substitution must be surfaced to the caller as a flagged
anomaly, not silently applied" — the result carrying the required explicit
anomaly flag.  The source's PayrollCalculationResult has no such field. -/
structure FlaggedPayrollResult where
  result : PayrollCalculationResult
  salaryDefaultApplied : Bool
  deriving Repr, DecidableEq

/-- Modelled from the spec: calculateEmployeePayroll as the spec describes
it, returning the figures together with the anomaly flag that records
whether the salary default-hours substitution fired. -/
def calculateEmployeePayrollFlagged (input : PayrollCalculationInput)
    (rates : PayrollRates) (payPeriod : PayPeriodRec)
    (entries : List PayrollEntryRec) : FlaggedPayrollResult :=
  { result := calculateEmployeePayrollCore input rates payPeriod entries
    salaryDefaultApplied := decide (input.payType = .SALARY ∧
      (entries.filter (qualifiesForPayroll payPeriod)).length = 0) }

/-- C4 counterexample: for a salaried employee with zero qualifying entries
the code returns exactly the bare, unflagged formula record over the
hard-coded 75 hours — equal to the flag-erasure of the spec's flagged
result whose flag is true.  Every field is an id, a number or a list; the
substitution leaves no explicit anomaly marker, refuting "it is never
applied silently". -/
theorem salary_fallback_applied_silently :
    calculateEmployeePayroll ⟨"e4", "pp7", 20, .SALARY⟩ exampleRatesC7
        (some examplePeriodC7) []
      = Except.ok (calculateEmployeePayrollFlagged ⟨"e4", "pp7", 20, .SALARY⟩
          exampleRatesC7 examplePeriodC7 []).result ∧
    (calculateEmployeePayrollFlagged ⟨"e4", "pp7", 20, .SALARY⟩ exampleRatesC7
        examplePeriodC7 []).salaryDefaultApplied = true ∧
    (calculateEmployeePayrollFlagged ⟨"e4", "pp7", 20, .SALARY⟩ exampleRatesC7
        examplePeriodC7 []).result
      = { employeeId := "e4", payPeriodId := "pp7", regularHours := 75,
          overtimeHours := 0, totalHours := 75, regularPay := 1500,
          overtimePay := 0, grossPay := 1500, deductions := 330,
          netPay := 1170, timeEntriesCount := 0, timeEntriesDetails := [] } := by
  have h75 : round2 75 = 75 := by
    have h := round2_nat 75
    norm_num at h
    exact h
  have h0 : round2 0 = 0 := by
    have h := round2_nat 0
    norm_num at h
    exact h
  have h1500 : round2 1500 = 1500 := by
    have h := round2_nat 1500
    norm_num at h
    exact h
  have h330 : round2 330 = 330 := by
    have h := round2_nat 330
    norm_num at h
    exact h
  have h1170 : round2 1170 = 1170 := by
    have h := round2_nat 1170
    norm_num at h
    exact h
  refine ⟨rfl, rfl, ?_⟩
  show calculateEmployeePayrollCore ⟨"e4", "pp7", 20, .SALARY⟩ exampleRatesC7
      examplePeriodC7 [] = _
  unfold calculateEmployeePayrollCore
  simp only [List.filter_nil, List.length_nil, List.map_nil, and_self,
    eq_self_iff_true, if_true, exampleRatesC7, PayrollCalculationResult.mk.injEq]
  norm_num [h75, h0, h1500, h330, h1170]

/-- C4 amended: when payType is SALARY and there are zero qualifying time
entries, calculateEmployeePayroll assigns the hard-coded 75 default hours
instead of zero, but applies the substitution silently: it returns exactly
the flag-erasure of the spec's flagged result and carries no anomaly
marker; the only trace is timeEntriesCount = 0. -/
theorem salary_fallback_amended (eid pid : String) (rate : ℚ)
    (rates : PayrollRates) (payPeriod : PayPeriodRec)
    (entries : List PayrollEntryRec)
    (hq : entries.filter (qualifiesForPayroll payPeriod) = []) :
    ∃ r, calculateEmployeePayroll ⟨eid, pid, rate, .SALARY⟩ rates
        (some payPeriod) entries = Except.ok r ∧
      r.regularHours = 75 ∧ r.overtimeHours = 0 ∧ r.timeEntriesCount = 0 ∧
      r = (calculateEmployeePayrollFlagged ⟨eid, pid, rate, .SALARY⟩ rates
          payPeriod entries).result ∧
      (calculateEmployeePayrollFlagged ⟨eid, pid, rate, .SALARY⟩ rates
          payPeriod entries).salaryDefaultApplied = true := by
  have h75 : round2 75 = 75 := by
    have h := round2_nat 75
    norm_num at h
    exact h
  have h0 : round2 0 = 0 := by
    have h := round2_nat 0
    norm_num at h
    exact h
  refine ⟨_, rfl, ?_, ?_, ?_, rfl, ?_⟩
  · show round2 (if PayType.SALARY = PayType.SALARY ∧
        (entries.filter (qualifiesForPayroll payPeriod)).length = 0
      then 75 else sumRegularHours (entries.filter (qualifiesForPayroll payPeriod))) = 75
    rw [hq]
    simp only [List.length_nil, and_self, eq_self_iff_true, if_true]
    exact h75
  · show round2 (if PayType.SALARY = PayType.SALARY ∧
        (entries.filter (qualifiesForPayroll payPeriod)).length = 0
      then 0 else sumOvertimeHours (entries.filter (qualifiesForPayroll payPeriod))) = 0
    rw [hq]
    simp only [List.length_nil, and_self, eq_self_iff_true, if_true]
    exact h0
  · show (entries.filter (qualifiesForPayroll payPeriod)).length = 0
    rw [hq]
    rfl
  · show decide (PayType.SALARY = PayType.SALARY ∧
        (entries.filter (qualifiesForPayroll payPeriod)).length = 0) = true
    rw [hq]
    simp

/-- C4 amended witness: the fallback on a concrete salaried employee with no
entries. -/
theorem salary_fallback_amended_witness :
    ∃ r, calculateEmployeePayroll ⟨"e4w", "pp7", 20, .SALARY⟩ exampleRatesC7
        (some examplePeriodC7) [] = Except.ok r ∧
      r.regularHours = 75 ∧ r.overtimeHours = 0 ∧ r.timeEntriesCount = 0 ∧
      r = (calculateEmployeePayrollFlagged ⟨"e4w", "pp7", 20, .SALARY⟩
          exampleRatesC7 examplePeriodC7 []).result ∧
      (calculateEmployeePayrollFlagged ⟨"e4w", "pp7", 20, .SALARY⟩
          exampleRatesC7 examplePeriodC7 []).salaryDefaultApplied = true :=
  salary_fallback_amended "e4w" "pp7" 20 exampleRatesC7 examplePeriodC7 [] rfl

/-- An eligible employee row (ACTIVE with payRate and payType configured) as
selected by the batch query. -/
structure EmployeeRec where
  id : String
  payRate : ℚ
  payType : PayType
  deriving Repr, DecidableEq

/-- The batch summary object (emailService.service.ts lines 988-1005). -/
structure PayrollBatchSummary where
  totalEmployees : Nat
  totalRegularHours : ℚ
  totalOvertimeHours : ℚ
  totalGrossPay : ℚ
  totalDeductions : ℚ
  totalNetPay : ℚ
  averageHoursPerEmployee : ℚ
  averagePayPerEmployee : ℚ
  deriving Repr, DecidableEq

/-- The PayrollBatchCalculation return value (lines 1014-1024): note it has
the successes list and summary but no field recording per-employee
failures. -/
structure PayrollBatchCalculation where
  payPeriodId : String
  periodStartMs : Nat
  periodEndMs : Nat
  period : String
  employees : List PayrollCalculationResult
  summary : PayrollBatchSummary
  calculatedAt : Nat
  deriving Repr, DecidableEq

/-- The `YYYY-MM-A|B` period string (lines 1007-1012). -/
def periodStringOf (p : PayPeriodRec) : String :=
  toString p.startYear ++ "-" ++
    (if p.startMonth < 10 then "0" ++ toString p.startMonth
     else toString p.startMonth) ++
    "-" ++ (if p.startDay = 1 then "A" else "B")

/-- PayrollCalculationService.calculateBatchPayroll (emailService.service.ts
lines 931-1025).  The per-employee computation
(`await this.calculateEmployeePayroll({...})` with its data access) is the
`calc` parameter; the source's try/catch records nothing and continues, so a
failed employee is simply dropped (`filterMap` over `toOption`). -/
def calculateBatchPayroll (payPeriod? : Option PayPeriodRec)
    (payPeriodId : String) (employees : List EmployeeRec)
    (calcOne : EmployeeRec → Except String PayrollCalculationResult)
    (now : Nat) : Except String PayrollBatchCalculation :=
  match payPeriod? with
  | none => .error "Pay period not found"
  | some payPeriod =>
    if employees.length = 0 then
      .error "No eligible employees found for payroll calculation"
    else
      let employeeCalculations := employees.filterMap fun employee => (calcOne employee).toOption
      let totalEmployees := employeeCalculations.length
      let totalRegularHours := employeeCalculations.foldl (fun s c => s + c.regularHours) 0
      let totalOvertimeHours := employeeCalculations.foldl (fun s c => s + c.overtimeHours) 0
      let totalGrossPay := employeeCalculations.foldl (fun s c => s + c.grossPay) 0
      let totalDeductions := employeeCalculations.foldl (fun s c => s + c.deductions) 0
      let totalNetPay := employeeCalculations.foldl (fun s c => s + c.netPay) 0
      let summary : PayrollBatchSummary :=
        { totalEmployees := totalEmployees
          totalRegularHours := totalRegularHours
          totalOvertimeHours := totalOvertimeHours
          totalGrossPay := totalGrossPay
          totalDeductions := totalDeductions
          totalNetPay := totalNetPay
          averageHoursPerEmployee :=
            if totalEmployees > 0 then
              round2 ((totalRegularHours + totalOvertimeHours) / (totalEmployees : ℚ))
            else 0
          averagePayPerEmployee :=
            if totalEmployees > 0 then round2 (totalGrossPay / (totalEmployees : ℚ))
            else 0 }
      .ok { payPeriodId := payPeriodId
            periodStartMs := payPeriod.startMs
            periodEndMs := payPeriod.endMs
            period := periodStringOf payPeriod
            employees := employeeCalculations
            summary := summary
            calculatedAt := now }

/-- An employee whose per-employee computation succeeds. -/
def empOkC5 : EmployeeRec := ⟨"good", 20, .HOURLY⟩

/-- An employee whose per-employee computation rejects. -/
def empBadC5 : EmployeeRec := ⟨"bad", 20, .HOURLY⟩

/-- A per-employee computation that throws for "bad" and otherwise runs
calculateEmployeePayroll. -/
def calcDemoC5 : EmployeeRec → Except String PayrollCalculationResult :=
  fun employee =>
    if employee.id = "bad" then .error "simulated per-employee failure"
    else calculateEmployeePayroll
      ⟨employee.id, "pp7", employee.payRate, employee.payType⟩
      exampleRatesC7 (some examplePeriodC7) []

/-- C5 counterexample: a batch over [bad, good] where exactly the first
computation throws returns a value EQUAL to the batch that never contained
the failing employee — so the return value records no per-employee failure
(the claim's "1 recorded per-employee failure in its return value" is
false); it does return the N-1 = 1 success without propagating an
exception. -/
theorem batch_failure_not_recorded :
    calculateBatchPayroll (some examplePeriodC7) "pp7" [empBadC5, empOkC5] calcDemoC5 1000
      = calculateBatchPayroll (some examplePeriodC7) "pp7" [empOkC5] calcDemoC5 1000 ∧
    ∃ r, calculateBatchPayroll (some examplePeriodC7) "pp7" [empBadC5, empOkC5] calcDemoC5 1000
        = Except.ok r ∧ r.employees.length = 1 := by
  exact ⟨rfl, _, rfl, rfl⟩

/-- The number of successes a filterMap over toOption keeps. -/
theorem length_filterMap_toOption (l : List EmployeeRec)
    (calcOne : EmployeeRec → Except String PayrollCalculationResult) :
    (l.filterMap fun e => (calcOne e).toOption).length
      = l.countP fun e => (calcOne e).toOption.isSome := by
  induction l with
  | nil => rfl
  | cons a l ih =>
    rw [List.filterMap_cons, List.countP_cons]
    cases h : (calcOne a).toOption with
    | none => simp [h, ih]
    | some v => simp [h, ih]

/-- C5 amended: in a batch of N eligible employees where exactly one
per-employee computation throws, calculateBatchPayroll propagates no
exception and returns N-1 successful results (also reflected in
summary.totalEmployees); the failure itself is only logged, not recorded in
the return value. -/
theorem batch_one_failure_absorbed (payPeriod : PayPeriodRec)
    (payPeriodId : String) (employees : List EmployeeRec)
    (calcOne : EmployeeRec → Except String PayrollCalculationResult) (now : Nat)
    (hcount : (employees.countP fun e => (calcOne e).toOption.isSome)
      = employees.length - 1)
    (hpos : 1 ≤ employees.length) :
    ∃ r, calculateBatchPayroll (some payPeriod) payPeriodId employees calcOne now
        = Except.ok r ∧
      r.employees.length = employees.length - 1 ∧
      r.summary.totalEmployees = employees.length - 1 := by
  simp only [calculateBatchPayroll]
  rw [if_neg (by omega)]
  refine ⟨_, rfl, ?_, ?_⟩
  · show (employees.filterMap fun e => (calcOne e).toOption).length = employees.length - 1
    rw [length_filterMap_toOption, hcount]
  · show (employees.filterMap fun e => (calcOne e).toOption).length = employees.length - 1
    rw [length_filterMap_toOption, hcount]

/-- C5 amended witness: the two-employee batch with one failure. -/
theorem batch_one_failure_absorbed_witness :
    ∃ r, calculateBatchPayroll (some examplePeriodC7) "pp7" [empBadC5, empOkC5] calcDemoC5 1000
        = Except.ok r ∧
      r.employees.length = [empBadC5, empOkC5].length - 1 ∧
      r.summary.totalEmployees = [empBadC5, empOkC5].length - 1 :=
  batch_one_failure_absorbed examplePeriodC7 "pp7" [empBadC5, empOkC5] calcDemoC5 1000
    (by decide) (by decide)

/-- Gregorian leap year, as JavaScript Date implements it. -/
def isLeapYear (year : Nat) : Bool :=
  year % 4 = 0 && (year % 100 != 0 || year % 400 = 0)

/-- `new Date(year, month, 0).getDate()` for a 1-based `month`: the number
of days of that month. -/
def daysInMonth (year month : Nat) : Nat :=
  if month = 2 then (if isLeapYear year then 29 else 28)
  else if month = 4 ∨ month = 6 ∨ month = 9 ∨ month = 11 then 30
  else 31

/-- A wall-clock date-time in the fixed organizational time zone
(America/Vancouver).  generatePayPeriodDates builds exactly such wall-clock
strings before converting them to UTC instants with fromZonedTime; the
conversion is outside this embedding. -/
structure PTDateTime where
  year : Nat
  month : Nat
  day : Nat
  hour : Nat
  minute : Nat
  second : Nat
  deriving Repr, DecidableEq

/-- The A/B half of a semi-monthly period. -/
inductive PeriodHalf where
  | A
  | B
  deriving Repr, DecidableEq

/-- The three dates returned by generatePayPeriodDates. -/
structure PayPeriodDates where
  startDate : PTDateTime
  endDate : PTDateTime
  payDate : PTDateTime
  deriving Repr, DecidableEq

/-- PayPeriodService.generatePayPeriodDates (payPeriod.service.ts lines
23-90): period A is day 1-15, period B day 16-last; start at 00:00:00, end
at 23:59:59; payDay = endDay + 5 with the source's explicit month/year
roll-over. -/
def generatePayPeriodDates (year month : Nat) (period : PeriodHalf) :
    PayPeriodDates :=
  let startDay := if period = .A then 1 else 16
  let endDay := if period = .A then 15 else daysInMonth year month
  let payDay := endDay + 5
  let lastDayOfMonth := daysInMonth year month
  let actualPayDay := if payDay > lastDayOfMonth then payDay - lastDayOfMonth else payDay
  let payMonth := if payDay > lastDayOfMonth then
      (if month + 1 > 12 then 1 else month + 1) else month
  let payYear := if payDay > lastDayOfMonth then
      (if month + 1 > 12 then year + 1 else year) else year
  { startDate := ⟨year, month, startDay, 0, 0, 0⟩
    endDate := ⟨year, month, endDay, 23, 59, 59⟩
    payDate := ⟨payYear, payMonth, actualPayDay, 0, 0, 0⟩ }

/-- A calendar date, for expressing "plus n calendar days". -/
structure CalDate where
  year : Nat
  month : Nat
  day : Nat
  deriving Repr, DecidableEq

/-- The next calendar day. -/
def nextCalendarDay (d : CalDate) : CalDate :=
  if d.day < daysInMonth d.year d.month then ⟨d.year, d.month, d.day + 1⟩
  else if d.month < 12 then ⟨d.year, d.month + 1, 1⟩
  else ⟨d.year + 1, 1, 1⟩

/-- Adding n calendar days. -/
def addCalendarDays (d : CalDate) : Nat → CalDate
  | 0 => d
  | n + 1 => addCalendarDays (nextCalendarDay d) n

/-- Every month has at least 28 days. -/
theorem daysInMonth_ge_28 (year month : Nat) : 28 ≤ daysInMonth year month := by
  unfold daysInMonth
  split_ifs <;> norm_num

/-- Adding days that stay inside the month. -/
theorem addCalendarDays_within (y m d n : Nat) (h : d + n ≤ daysInMonth y m) :
    addCalendarDays ⟨y, m, d⟩ n = ⟨y, m, d + n⟩ := by
  induction n generalizing d with
  | zero => rfl
  | succ n ih =>
    have hd : d < daysInMonth y m := by omega
    rw [addCalendarDays,
      show nextCalendarDay ⟨y, m, d⟩ = ⟨y, m, d + 1⟩ from by
        unfold nextCalendarDay
        rw [if_pos hd],
      ih (d + 1) (by omega)]
    simp only [CalDate.mk.injEq, true_and]
    omega

/-- C8: for every valid month, period A spans day 1 through day 15 and
period B spans day 16 through the last calendar day, with 00:00:00 start
and 23:59:59 end wall-clock times in the organizational time zone, and the
pay date is the end date plus 5 calendar days (rolling into the next month
or year), at 00:00:00. -/
theorem generatePayPeriodDates_spec (year month : Nat) (period : PeriodHalf)
    (h1 : 1 ≤ month) (h2 : month ≤ 12) :
    (generatePayPeriodDates year month period).startDate
        = ⟨year, month, if period = .A then 1 else 16, 0, 0, 0⟩ ∧
    (generatePayPeriodDates year month period).endDate
        = ⟨year, month, if period = .A then 15 else daysInMonth year month,
            23, 59, 59⟩ ∧
    (⟨(generatePayPeriodDates year month period).payDate.year,
      (generatePayPeriodDates year month period).payDate.month,
      (generatePayPeriodDates year month period).payDate.day⟩ : CalDate)
        = addCalendarDays
            ⟨year, month, if period = .A then 15 else daysInMonth year month⟩ 5 ∧
    (generatePayPeriodDates year month period).payDate.hour = 0 ∧
    (generatePayPeriodDates year month period).payDate.minute = 0 ∧
    (generatePayPeriodDates year month period).payDate.second = 0 := by
  have h28 := daysInMonth_ge_28 year month
  cases period with
  | A =>
    refine ⟨rfl, rfl, ?_, rfl, rfl, rfl⟩
    show (⟨if 15 + 5 > daysInMonth year month then
            (if month + 1 > 12 then year + 1 else year) else year,
          if 15 + 5 > daysInMonth year month then
            (if month + 1 > 12 then 1 else month + 1) else month,
          if 15 + 5 > daysInMonth year month then
            15 + 5 - daysInMonth year month else 15 + 5⟩ : CalDate)
        = addCalendarDays ⟨year, month, 15⟩ 5
    have hnr : ¬ (15 + 5 > daysInMonth year month) := by omega
    rw [addCalendarDays_within year month 15 5 (by omega),
      if_neg hnr, if_neg hnr, if_neg hnr]
  | B =>
    refine ⟨rfl, rfl, ?_, rfl, rfl, rfl⟩
    show (⟨if daysInMonth year month + 5 > daysInMonth year month then
            (if month + 1 > 12 then year + 1 else year) else year,
          if daysInMonth year month + 5 > daysInMonth year month then
            (if month + 1 > 12 then 1 else month + 1) else month,
          if daysInMonth year month + 5 > daysInMonth year month then
            daysInMonth year month + 5 - daysInMonth year month
          else daysInMonth year month + 5⟩ : CalDate)
        = addCalendarDays ⟨year, month, daysInMonth year month⟩ 5
    have hroll : daysInMonth year month + 5 > daysInMonth year month := by omega
    have hnext : addCalendarDays ⟨year, month, daysInMonth year month⟩ 5
        = if month < 12 then ⟨year, month + 1, 5⟩ else ⟨year + 1, 1, 5⟩ := by
      rw [addCalendarDays,
        show nextCalendarDay ⟨year, month, daysInMonth year month⟩
            = if month < 12 then ⟨year, month + 1, 1⟩ else ⟨year + 1, 1, 1⟩ from by
          unfold nextCalendarDay
          rw [if_neg (lt_irrefl _)]]
      by_cases hm : month < 12
      · rw [if_pos hm, if_pos hm,
          addCalendarDays_within year (month + 1) 1 4
            (by have := daysInMonth_ge_28 year (month + 1); omega)]
      · rw [if_neg hm, if_neg hm,
          addCalendarDays_within (year + 1) 1 1 4
            (by have := daysInMonth_ge_28 (year + 1) 1; omega)]
    rw [hnext, if_pos hroll, if_pos hroll, if_pos hroll]
    by_cases hm : month < 12
    · rw [if_pos hm, if_neg (by omega : ¬ (month + 1 > 12)),
        if_neg (by omega : ¬ (month + 1 > 12))]
      simp only [CalDate.mk.injEq, true_and]
      omega
    · rw [if_neg hm, if_pos (by omega : month + 1 > 12),
        if_pos (by omega : month + 1 > 12)]
      simp only [CalDate.mk.injEq, true_and]
      omega

/-- C8 witness: generatePayPeriodDates(2024, 1, A) gives start
2024-01-01T00:00:00, end 2024-01-15T23:59:59 and payDate 2024-01-20 (the
end date plus 5 calendar days). -/
theorem generatePayPeriodDates_spec_witness :
    (generatePayPeriodDates 2024 1 .A).startDate = ⟨2024, 1, 1, 0, 0, 0⟩ ∧
    (generatePayPeriodDates 2024 1 .A).endDate = ⟨2024, 1, 15, 23, 59, 59⟩ ∧
    (generatePayPeriodDates 2024 1 .A).payDate = ⟨2024, 1, 20, 0, 0, 0⟩ := by
  obtain ⟨hs, he, hc, hh, hm, hsec⟩ :=
    generatePayPeriodDates_spec 2024 1 .A (by norm_num) (by norm_num)
  refine ⟨hs, he, ?_⟩
  have hc2 : (⟨(generatePayPeriodDates 2024 1 .A).payDate.year,
      (generatePayPeriodDates 2024 1 .A).payDate.month,
      (generatePayPeriodDates 2024 1 .A).payDate.day⟩ : CalDate)
      = ⟨2024, 1, 20⟩ := by
    rw [hc]
    decide
  rw [CalDate.mk.injEq] at hc2
  obtain ⟨hy, hmo, hd⟩ := hc2
  calc (generatePayPeriodDates 2024 1 .A).payDate
      = ⟨(generatePayPeriodDates 2024 1 .A).payDate.year,
         (generatePayPeriodDates 2024 1 .A).payDate.month,
         (generatePayPeriodDates 2024 1 .A).payDate.day,
         (generatePayPeriodDates 2024 1 .A).payDate.hour,
         (generatePayPeriodDates 2024 1 .A).payDate.minute,
         (generatePayPeriodDates 2024 1 .A).payDate.second⟩ := rfl
    _ = ⟨2024, 1, 20, 0, 0, 0⟩ := by rw [hy, hmo, hd, hh, hm, hsec]
